import Mathlib

/-!
Verification development for the hydraulic-network editor's coordinate and
geometry engine.  The Python source is shallowly embedded: numeric values
(Python floats) are modelled as rationals, points as pairs of rationals, and
each relevant method becomes a Lean function translated statement by
statement from the source file named next to it.
-/

/-- A 2D point, modelling `QPointF` with rational coordinates. -/
structure Point where
  x : ℚ
  y : ℚ
  deriving DecidableEq, Repr

instance : Add Point where
  add p q := ⟨p.x + q.x, p.y + q.y⟩

instance : Sub Point where
  sub p q := ⟨p.x - q.x, p.y - q.y⟩

theorem Point.add_def (p q : Point) : p + q = ⟨p.x + q.x, p.y + q.y⟩ := rfl

theorem Point.ext_xy {p q : Point} (hx : p.x = q.x) (hy : p.y = q.y) : p = q := by
  cases p; cases q; simp_all

/-! ## SVG port parser (src/config/svg_port_parser.py) -/

/-- Rounding to 2 decimal places, modelling Python `round(x, 2)`
(ties, which Python breaks to even, do not arise in the claims checked here). -/
def round2 (q : ℚ) : ℚ := (Int.floor (q * 100 + 1 / 2) : ℚ) / 100

/-- Rounding to 1 decimal place, modelling Python `round(x, 1)`. -/
def round1 (q : ℚ) : ℚ := (Int.floor (q * 10 + 1 / 2) : ℚ) / 10

/-- `SVGPortParser._convert_svg_to_qt_coordinates` (svg_port_parser.py lines 235-264):
proportional viewBox-to-pixel mapping, each coordinate rounded to 2 decimals. -/
def convert_svg_to_qt_coordinates (svg_pos : ℚ × ℚ) (svg_viewbox : ℚ × ℚ × ℚ × ℚ)
    (target_size : ℚ × ℚ) : ℚ × ℚ :=
  let svg_x := svg_pos.1
  let svg_y := svg_pos.2
  let vb_x := svg_viewbox.1
  let vb_y := svg_viewbox.2.1
  let vb_width := svg_viewbox.2.2.1
  let vb_height := svg_viewbox.2.2.2
  let target_width := target_size.1
  let target_height := target_size.2
  let qt_x := ((svg_x - vb_x) / vb_width) * target_width
  let qt_y := ((svg_y - vb_y) / vb_height) * target_height
  (round2 qt_x, round2 qt_y)

/-- C1: for every circle center, viewBox and target size the conversion returns
exactly the rounded proportional mapping, and on viewBox (0,0,7.9375,7.9375),
target 30x30, input (3.96875, 0.52916664) the result is within 0.01 of (15, 2). -/
theorem C1_coordinate_conversion :
    (∀ (svgX svgY originX originY viewW viewH targetW targetH : ℚ),
      convert_svg_to_qt_coordinates (svgX, svgY) (originX, originY, viewW, viewH)
          (targetW, targetH)
        = (round2 (((svgX - originX) / viewW) * targetW),
           round2 (((svgY - originY) / viewH) * targetH)))
    ∧ |(convert_svg_to_qt_coordinates (3.96875, 0.52916664) (0, 0, 7.9375, 7.9375)
          (30, 30)).1 - 15| ≤ 1 / 100
    ∧ |(convert_svg_to_qt_coordinates (3.96875, 0.52916664) (0, 0, 7.9375, 7.9375)
          (30, 30)).2 - 2| ≤ 1 / 100 := by
  refine ⟨fun _ _ _ _ _ _ _ _ => rfl, ?_, ?_⟩ <;>
    norm_num [convert_svg_to_qt_coordinates, round2]

/-! ## Orthogonal pipe router (src/components/pipe.py) -/

/-- `OrthogonalPipe.create_orthogonal_segments` (pipe.py lines 135-149):
if the horizontal distance dominates, go horizontal first, else vertical first. -/
def create_orthogonal_segments (s e : Point) : List Point :=
  if |e.x - s.x| ≥ |e.y - s.y| then [s, ⟨e.x, s.y⟩, e]
  else [s, ⟨s.x, e.y⟩, e]

/-- The corner point the router inserts between `s` and `e`. -/
def mid_point (s e : Point) : Point :=
  if |e.x - s.x| ≥ |e.y - s.y| then ⟨e.x, s.y⟩ else ⟨s.x, e.y⟩

/-- Tail of `calculate_orthogonal_path` (pipe.py lines 116-133): each leg
contributes its points except the first, which the previous leg already emitted. -/
def orthoPathAux (e : Point) : Point → List Point → List Point
  | cur, [] => (create_orthogonal_segments cur e).drop 1
  | cur, w :: ws => (create_orthogonal_segments cur w).drop 1 ++ orthoPathAux e w ws

/-- `OrthogonalPipe.calculate_orthogonal_path` (pipe.py lines 116-133). -/
def calculate_orthogonal_path (start_pos end_pos : Point) (waypoints : List Point) :
    List Point :=
  start_pos :: orthoPathAux end_pos start_pos waypoints

/-- Two consecutive path points differ in at most one coordinate
(the segment between them is horizontal, vertical, or degenerate). -/
def diffAtMostOne (p q : Point) : Prop := p.x = q.x ∨ p.y = q.y

instance (p q : Point) : Decidable (diffAtMostOne p q) := by
  unfold diffAtMostOne; infer_instance

/-- Two consecutive path points differ in exactly one coordinate. -/
def diffExactlyOne (p q : Point) : Prop :=
  (p.x = q.x ∧ p.y ≠ q.y) ∨ (p.x ≠ q.x ∧ p.y = q.y)

instance (p q : Point) : Decidable (diffExactlyOne p q) := by
  unfold diffExactlyOne; infer_instance

theorem create_orthogonal_segments_eq (s e : Point) :
    create_orthogonal_segments s e = [s, mid_point s e, e] := by
  unfold create_orthogonal_segments mid_point
  split <;> rfl

theorem diffAtMostOne_left (s e : Point) : diffAtMostOne s (mid_point s e) := by
  unfold mid_point; split
  · exact Or.inr rfl
  · exact Or.inl rfl

theorem diffAtMostOne_right (s e : Point) : diffAtMostOne (mid_point s e) e := by
  unfold mid_point; split
  · exact Or.inl rfl
  · exact Or.inr rfl

theorem orthoPathAux_nil (e cur : Point) :
    orthoPathAux e cur [] = [mid_point cur e, e] := by
  show (create_orthogonal_segments cur e).drop 1 = _
  rw [create_orthogonal_segments_eq]
  simp

theorem orthoPathAux_cons (e cur w : Point) (ws : List Point) :
    orthoPathAux e cur (w :: ws) = mid_point cur w :: w :: orthoPathAux e w ws := by
  show (create_orthogonal_segments cur w).drop 1 ++ orthoPathAux e w ws = _
  rw [create_orthogonal_segments_eq]
  simp

theorem orthoPathAux_chain (e : Point) :
    ∀ (ws : List Point) (cur : Point),
      List.Chain' diffAtMostOne (cur :: orthoPathAux e cur ws)
      ∧ (cur :: orthoPathAux e cur ws).getLast? = some e
  | [], cur => by
      rw [orthoPathAux_nil]
      refine ⟨List.chain'_cons.mpr ⟨diffAtMostOne_left cur e,
        List.chain'_cons.mpr ⟨diffAtMostOne_right cur e, List.chain'_singleton e⟩⟩, ?_⟩
      rfl
  | w :: ws, cur => by
      rw [orthoPathAux_cons]
      obtain ⟨hchain, hlast⟩ := orthoPathAux_chain e ws w
      refine ⟨List.chain'_cons.mpr ⟨diffAtMostOne_left cur w,
        List.chain'_cons.mpr ⟨diffAtMostOne_right cur w, hchain⟩⟩, ?_⟩
      rw [List.getLast?_cons_cons, List.getLast?_cons_cons]
      exact hlast

/-- C3 (amended): the routed path starts at the start point, ends at the end
point, and every consecutive pair differs in at most one coordinate (each
segment is horizontal, vertical, or degenerate). -/
theorem C3_orthogonal_path_structure (start_pos end_pos : Point)
    (waypoints : List Point) :
    (calculate_orthogonal_path start_pos end_pos waypoints).head? = some start_pos
    ∧ (calculate_orthogonal_path start_pos end_pos waypoints).getLast? = some end_pos
    ∧ List.Chain' diffAtMostOne (calculate_orthogonal_path start_pos end_pos waypoints) := by
  obtain ⟨hchain, hlast⟩ := orthoPathAux_chain end_pos waypoints start_pos
  exact ⟨rfl, hlast, hchain⟩

/-- C3 counterexample: with endpoints sharing a Y coordinate and no waypoints
the path repeats its final point, so one consecutive pair differs in no
coordinate at all, refuting the claim that every pair differs in exactly one. -/
theorem C3_counterexample :
    calculate_orthogonal_path ⟨0, 0⟩ ⟨5, 0⟩ [] = [⟨0, 0⟩, ⟨5, 0⟩, ⟨5, 0⟩]
    ∧ ¬ List.Chain' diffExactlyOne (calculate_orthogonal_path ⟨0, 0⟩ ⟨5, 0⟩ []) := by
  have h : calculate_orthogonal_path ⟨0, 0⟩ ⟨5, 0⟩ [] = [⟨0, 0⟩, ⟨5, 0⟩, ⟨5, 0⟩] := by
    rw [calculate_orthogonal_path, orthoPathAux_nil]
    norm_num [mid_point]
  refine ⟨h, ?_⟩
  rw [h]
  simp [List.chain'_cons, diffExactlyOne]

/-- Length of one path segment.  The source computes the Euclidean distance
sqrt(dx*dx + dy*dy) (pipe.py lines 151-159); on the axis-aligned segments the
router produces one of dx, dy is always zero, where that distance equals
the sum below, which keeps the model inside the rationals. -/
def segment_length (p q : Point) : ℚ := |q.x - p.x| + |q.y - p.y|

/-- Sum of the segment lengths of consecutive path points (pipe.py lines 151-159). -/
def path_length_sum : List Point → ℚ
  | [] => 0
  | [_] => 0
  | p :: q :: rest => segment_length p q + path_length_sum (q :: rest)

/-- `OrthogonalPipe.calculate_total_length` (pipe.py lines 151-159):
sum of segment lengths, times the fixed 0.5 pixel-to-millimeter constant,
rounded to 1 decimal place. -/
def calculate_total_length (points : List Point) : ℚ :=
  round1 (path_length_sum points * (1 / 2))

/-- The mutable state of a pipe that `update_orthogonal_path` touches:
its routed points and its derived length. -/
structure PipeState where
  points : List Point
  length : ℚ
  deriving DecidableEq, Repr

/-- `OrthogonalPipe.update_orthogonal_path` (pipe.py lines 78-114).  Port
resolution through the component references is modelled by the two lookup
functions; `none` models `get_port_by_id` returning `None`.  The returned
flag is `false` exactly on the early-return error branch, which reports and
leaves the state untouched; the whole body runs under a catch-all handler,
modelled by this being a total function. -/
def update_orthogonal_path (get_start_port get_end_port : String → Option Point)
    (start_port end_port : String) (waypoints : List Point)
    (st : PipeState) : PipeState × Bool :=
  match get_start_port start_port, get_end_port end_port with
  | some start_pos, some end_pos =>
      let points := calculate_orthogonal_path start_pos end_pos waypoints
      (⟨points, calculate_total_length points⟩, true)
  | _, _ => (st, false)

/-- C9: when either endpoint port id cannot be resolved, recomputing the route
reports the error (flag `false`) and returns with the points and length
exactly unchanged, and never raises to the caller. -/
theorem C9_unresolvable_port_keeps_state
    (get_start_port get_end_port : String → Option Point)
    (start_port end_port : String) (waypoints : List Point) (st : PipeState)
    (h : get_start_port start_port = none ∨ get_end_port end_port = none) :
    update_orthogonal_path get_start_port get_end_port start_port end_port
      waypoints st = (st, false) := by
  rcases hs : get_start_port start_port with _ | sp <;>
    rcases he : get_end_port end_port with _ | ep <;>
    unfold update_orthogonal_path <;> rw [hs, he]
  rcases h with h | h
  · rw [hs] at h; exact absurd h (by simp)
  · rw [he] at h; exact absurd h (by simp)

/-- Witness for C9 at a concrete unresolvable lookup. -/
theorem C9_witness :
    update_orthogonal_path (fun _ => none) (fun _ => some ⟨7, 8⟩) "inlet" "outlet"
      [⟨1, 1⟩] ⟨[⟨2, 3⟩, ⟨4, 3⟩], 9⟩ = (⟨[⟨2, 3⟩, ⟨4, 3⟩], 9⟩, false) :=
  C9_unresolvable_port_keeps_state _ _ _ _ _ _ (Or.inl rfl)

/-! ## Hydraulic components and ports
(src/components/hydraulic_object.py, src/components/ports.py) -/

@[simp] theorem Point.fst_add (p q : Point) : (p + q).x = p.x + q.x := rfl

@[simp] theorem Point.snd_add (p q : Point) : (p + q).y = p.y + q.y := rfl

@[simp] theorem Point.fst_sub (p q : Point) : (p - q).x = p.x - q.x := rfl

@[simp] theorem Point.snd_sub (p q : Point) : (p - q).y = p.y - q.y := rfl

/-- One entry of `get_port_configs` for a component type: the template's
port id, port type and base relative position (config/hydraulic_objects.py). -/
structure PortConfig where
  id : String
  type : String
  position : Point
  deriving DecidableEq, Repr

/-- The state of a live `Port` touched by scale, move, rotate and flip
operations (ports.py): its relative position `initial_position`, the scene
position set through `setPos`, and the scale-dependent visual radius. -/
structure PortState where
  port_id : String
  port_type : String
  initial_position : Point
  pos : Point
  current_scale : ℚ
  effective_radius : ℚ
  deriving DecidableEq, Repr

/-- `Port.BASE_RADIUS` (ports.py line 26). -/
def BASE_RADIUS : ℚ := 3

/-- `Port.update_scale` (ports.py lines 63-80): a no-op when the scale is
unchanged, otherwise records the new scale and the rescaled radius. -/
def port_update_scale (scale : ℚ) (p : PortState) : PortState :=
  if scale ≠ p.current_scale then
    { p with current_scale := scale, effective_radius := BASE_RADIUS * scale }
  else p

/-- The state of a `HydraulicObject` that the verified operations touch. -/
structure HydraulicObjectState where
  port_configs : List PortConfig
  base_svg_scale : ℚ
  current_scale : ℚ
  rotation : ℚ
  scene_pos : Point
  ports : List PortState
  deriving DecidableEq, Repr

/-- Loop body of `HydraulicObject.update_ports_scale` (hydraulic_object.py
lines 236-262): walks ports and template configs in parallel; ports beyond
the config list are left untouched, matching the `i < len(port_configs)`
guard.  Ports are assumed to be in the scene so the `setPos` branch runs. -/
def update_ports_scale_aux (scene_pos : Point) (scale : ℚ) :
    List PortState → List PortConfig → List PortState
  | [], _ => []
  | ps, [] => ps
  | p :: ps, c :: cs =>
      let new_position : Point := ⟨c.position.x * scale, c.position.y * scale⟩
      port_update_scale scale
        { p with initial_position := new_position, pos := scene_pos + new_position }
        :: update_ports_scale_aux scene_pos scale ps cs

/-- `HydraulicObject.update_ports_scale` (hydraulic_object.py lines 236-262). -/
def update_ports_scale (o : HydraulicObjectState) : HydraulicObjectState :=
  { o with ports :=
      update_ports_scale_aux o.scene_pos o.current_scale o.ports o.port_configs }

/-- `HydraulicObject.update_scale` with an explicit global multiplier
(hydraulic_object.py lines 211-234): recompute the effective scale from the
base SVG scale, and only when it changed, rescale the group and the ports. -/
def update_scale (o : HydraulicObjectState) (new_global_scale : ℚ) :
    HydraulicObjectState :=
  let new_scale := o.base_svg_scale * new_global_scale
  if new_scale ≠ o.current_scale then
    update_ports_scale { o with current_scale := new_scale }
  else o

/-- `HydraulicObject.create_ports` (hydraulic_object.py lines 166-186) plus
the scene placement used by every caller: ports start at the template base
position, at port scale 1 with radius BASE_RADIUS (`Port.__init__`). -/
def create_ports (scene_pos : Point) (configs : List PortConfig) : List PortState :=
  configs.map fun c =>
    ⟨c.id, c.type, c.position, scene_pos + c.position, 1, BASE_RADIUS⟩

/-- `HydraulicObject.__init__` (hydraulic_object.py lines 57-98): create the
ports at base positions, set the effective scale to
`base_svg_scale * global_scale`, then run `update_ports_scale`. -/
def mkHydraulicObject (configs : List PortConfig) (base_svg_scale global_scale : ℚ)
    (scene_pos : Point) : HydraulicObjectState :=
  update_ports_scale
    { port_configs := configs
      base_svg_scale := base_svg_scale
      current_scale := base_svg_scale * global_scale
      rotation := 0
      scene_pos := scene_pos
      ports := create_ports scene_pos configs }

/-- `HydraulicObject.update_ports_positions` (hydraulic_object.py lines
354-359): after a move every port's scene position is the new component
position plus its current relative position. -/
def update_ports_positions (o : HydraulicObjectState)
    (new_component_position : Point) : HydraulicObjectState :=
  { o with ports := o.ports.map fun p =>
      { p with pos := new_component_position + p.initial_position } }

/-! ## Transform engine (src/controllers/transform_controller.py) -/

/-- `TransformController._flip_object_ports` (transform_controller.py lines
681-719): a horizontal flip negates each port's relative X, a vertical flip
its relative Y, and the scene position is re-derived from the owner's
(unchanged) position plus the new relative position. -/
def flip_object_ports (o : HydraulicObjectState) (flip_type : String) :
    HydraulicObjectState :=
  { o with ports := o.ports.map fun p =>
      if flip_type = "horizontal" then
        let new_rel : Point := ⟨-p.initial_position.x, p.initial_position.y⟩
        { p with initial_position := new_rel, pos := o.scene_pos + new_rel }
      else if flip_type = "vertical" then
        let new_rel : Point := ⟨p.initial_position.x, -p.initial_position.y⟩
        { p with initial_position := new_rel, pos := o.scene_pos + new_rel }
      else p }

/-- `TransformController._flip_single_object_around_center` (lines 496-540):
the object keeps its scene position and only the ports are mirrored (the
cosmetic QTransform applied to the shape is visual-only state outside this
model). -/
def flip_single_object_around_center (o : HydraulicObjectState)
    (flip_type : String) : HydraulicObjectState :=
  flip_object_ports o flip_type

/-- Rotation of a vector by an angle with cosine `c` and sine `s`: the
formula `(x*cos - y*sin, x*sin + y*cos)` of `_rotate_single_object` and
`_rotate_object_ports`.  The trigonometric values are parameters so the
model stays rational; for the 90 degree claims they are exactly (0, 1). -/
def rotate_vec (c s : ℚ) (v : Point) : Point :=
  ⟨v.x * c - v.y * s, v.x * s + v.y * c⟩

/-- `TransformController._rotate_object_ports` (lines 157-211).  The helper
`rotate_ports_around_center` is defined at module level in
hydraulic_object.py, not on the class, so `hasattr` fails and the fallback
branch is the executed path; it rotates each port's relative position and
re-derives its scene position from the owner's already-updated position. -/
def rotate_object_ports (c s : ℚ) (o : HydraulicObjectState) :
    HydraulicObjectState :=
  { o with ports := o.ports.map fun p =>
      let new_rel := rotate_vec c s p.initial_position
      { p with initial_position := new_rel, pos := o.scene_pos + new_rel } }

/-- `TransformController._rotate_single_object` (lines 106-155): move the
object by rotating the centroid-to-object vector, add the angle to its
visual rotation, rotate its ports, then resync the port scene positions. -/
def rotate_single_object (angle_degrees c s : ℚ) (center : Point)
    (o : HydraulicObjectState) : HydraulicObjectState :=
  let current_pos := o.scene_pos
  let d : Point := current_pos - center
  let new_pos : Point := center + rotate_vec c s d
  let o1 := { o with scene_pos := new_pos,
                     rotation := o.rotation + angle_degrees }
  let o2 := rotate_object_ports c s o1
  update_ports_positions o2 new_pos

/-- `TransformController._calculate_objects_center` (lines 744-763):
unweighted arithmetic mean of the selected scene positions. -/
def calculate_objects_center : List HydraulicObjectState → Point
  | [] => ⟨0, 0⟩
  | objs =>
      ⟨(objs.map fun o => o.scene_pos.x).sum / objs.length,
       (objs.map fun o => o.scene_pos.y).sum / objs.length⟩

/-- `TransformController.rotate_objects` core (lines 46-96): centroid of the
selection, then every object rotated about it (all modelled objects are
valid hydraulic objects, so the filtering step keeps the list). -/
def rotate_objects (angle_degrees c s : ℚ)
    (objs : List HydraulicObjectState) : List HydraulicObjectState :=
  let center := calculate_objects_center objs
  objs.map (rotate_single_object angle_degrees c s center)

/-- `TransformController._calculate_alignment_reference` (lines 291-323):
the reference coordinate comes from the LAST element of the selection;
`none` models the ValueError branches. -/
def calculate_alignment_reference (objs : List HydraulicObjectState)
    (alignment_type : String) : Option ℚ :=
  match objs.getLast? with
  | none => none
  | some reference_object =>
      if alignment_type = "horizontal" then some reference_object.scene_pos.y
      else if alignment_type = "vertical" then some reference_object.scene_pos.x
      else none

/-- `TransformController._align_single_object` (lines 325-361): keep one
coordinate, move the other onto the reference line, then resync ports. -/
def align_single_object (o : HydraulicObjectState) (reference_line : ℚ)
    (alignment_type : String) : HydraulicObjectState :=
  if alignment_type = "horizontal" then
    update_ports_positions { o with scene_pos := ⟨o.scene_pos.x, reference_line⟩ }
      ⟨o.scene_pos.x, reference_line⟩
  else if alignment_type = "vertical" then
    update_ports_positions { o with scene_pos := ⟨reference_line, o.scene_pos.y⟩ }
      ⟨reference_line, o.scene_pos.y⟩
  else o

/-- `TransformController._align_objects` (lines 239-289): fewer than two
objects is a validation failure (flag false, nothing moves); otherwise every
object is aligned to the reference taken from the last one. -/
def align_objects (objs : List HydraulicObjectState) (alignment_type : String) :
    List HydraulicObjectState × Bool :=
  if objs.length < 2 then (objs, false)
  else
    match calculate_alignment_reference objs alignment_type with
    | none => (objs, false)
    | some reference_line =>
        (objs.map fun o => align_single_object o reference_line alignment_type,
         true)

/-- C4: flipping mirrors a component about its own center: the scene position
is unchanged, a horizontal flip negates each port's relative X (a vertical
flip its relative Y), each port's scene position becomes the unchanged scene
position plus the new relative position, and flipping horizontally twice
restores every port's relative position exactly. -/
theorem C4_flip_mirrors_about_center (o : HydraulicObjectState) :
    (∀ flip_type, (flip_single_object_around_center o flip_type).scene_pos
        = o.scene_pos)
    ∧ (flip_single_object_around_center o "horizontal").ports
        = o.ports.map (fun p =>
            { p with
              initial_position := ⟨-p.initial_position.x, p.initial_position.y⟩,
              pos := o.scene_pos + ⟨-p.initial_position.x, p.initial_position.y⟩ })
    ∧ (flip_single_object_around_center o "vertical").ports
        = o.ports.map (fun p =>
            { p with
              initial_position := ⟨p.initial_position.x, -p.initial_position.y⟩,
              pos := o.scene_pos + ⟨p.initial_position.x, -p.initial_position.y⟩ })
    ∧ (flip_single_object_around_center
         (flip_single_object_around_center o "horizontal") "horizontal").ports.map
           (fun p => p.initial_position)
        = o.ports.map fun p => p.initial_position := by
  refine ⟨fun _ => rfl, ?_, ?_, ?_⟩
  · simp [flip_single_object_around_center, flip_object_ports]
  · simp [flip_single_object_around_center, flip_object_ports]
  · simp [flip_single_object_around_center, flip_object_ports, List.map_map]

/-- The port-list shape produced by construction: template positions scaled
by `scale`, placed relative to `scene_pos`, with port scale and radius in
sync. -/
def template_scaled_ports (scene_pos : Point) (scale : ℚ)
    (configs : List PortConfig) : List PortState :=
  configs.map fun c =>
    ⟨c.id, c.type, ⟨c.position.x * scale, c.position.y * scale⟩,
     scene_pos + ⟨c.position.x * scale, c.position.y * scale⟩,
     scale, BASE_RADIUS * scale⟩

/-- A component whose ports sit exactly at the template positions scaled by
its current scale - the shape construction produces and `update_scale`
preserves, but flips and rotations do not. -/
def TemplateScaled (o : HydraulicObjectState) : Prop :=
  o.ports = template_scaled_ports o.scene_pos o.current_scale o.port_configs

theorem update_ports_scale_aux_template (scene_pos : Point)
    (new_scale old_scale : ℚ) (configs : List PortConfig) :
    update_ports_scale_aux scene_pos new_scale
        (template_scaled_ports scene_pos old_scale configs) configs
      = template_scaled_ports scene_pos new_scale configs := by
  induction configs with
  | nil => rfl
  | cons c rest ih =>
      simp only [template_scaled_ports, List.map_cons] at ih ⊢
      simp only [update_ports_scale_aux]
      rw [ih]
      congr 1
      unfold port_update_scale
      by_cases h : new_scale = old_scale
      · simp [h]
      · simp [h]

theorem create_ports_eq_template (scene_pos : Point) (configs : List PortConfig) :
    create_ports scene_pos configs = template_scaled_ports scene_pos 1 configs := by
  simp [create_ports, template_scaled_ports]

theorem mkHydraulicObject_template (configs : List PortConfig) (bs g : ℚ)
    (pos : Point) : TemplateScaled (mkHydraulicObject configs bs g pos) := by
  show update_ports_scale_aux pos (bs * g) (create_ports pos configs) configs
      = template_scaled_ports pos (bs * g) configs
  rw [create_ports_eq_template]
  exact update_ports_scale_aux_template pos (bs * g) 1 configs

theorem mk_port_configs (configs : List PortConfig) (bs g : ℚ) (pos : Point) :
    (mkHydraulicObject configs bs g pos).port_configs = configs := rfl

theorem mk_base_svg_scale (configs : List PortConfig) (bs g : ℚ) (pos : Point) :
    (mkHydraulicObject configs bs g pos).base_svg_scale = bs := rfl

theorem mk_scene_pos (configs : List PortConfig) (bs g : ℚ) (pos : Point) :
    (mkHydraulicObject configs bs g pos).scene_pos = pos := rfl

theorem mk_current_scale (configs : List PortConfig) (bs g : ℚ) (pos : Point) :
    (mkHydraulicObject configs bs g pos).current_scale = bs * g := rfl

theorem update_scale_template (o : HydraulicObjectState) (g : ℚ)
    (h : TemplateScaled o) :
    TemplateScaled (update_scale o g)
    ∧ (update_scale o g).current_scale = o.base_svg_scale * g
    ∧ (update_scale o g).port_configs = o.port_configs
    ∧ (update_scale o g).base_svg_scale = o.base_svg_scale
    ∧ (update_scale o g).scene_pos = o.scene_pos := by
  unfold update_scale
  by_cases hc : o.base_svg_scale * g = o.current_scale
  · rw [if_neg (not_ne_iff.mpr hc)]
    exact ⟨h, hc.symm, rfl, rfl, rfl⟩
  · rw [if_pos hc]
    refine ⟨?_, rfl, rfl, rfl, rfl⟩
    show update_ports_scale_aux o.scene_pos (o.base_svg_scale * g) o.ports o.port_configs
        = template_scaled_ports o.scene_pos (o.base_svg_scale * g) o.port_configs
    rw [h]
    exact update_ports_scale_aux_template o.scene_pos (o.base_svg_scale * g)
      o.current_scale o.port_configs

/-- C2 (amended): for every component whose port relative positions are its
template base coordinates scaled by its current scale (true of freshly
constructed components and preserved by every rescale and move, though not
by flips or rotations), calling update_scale(s1), update_scale(s2), then
update_scale(s1) leaves every port - relative position, absolute position,
scale and radius - exactly equal to a fresh construction followed by a
single update_scale(s1), because each effective rescale recomputes the ports
from the template base coordinates. -/
theorem C2_roundtrip_scale_templateScaled (o : HydraulicObjectState)
    (s1 s2 g0 : ℚ) (h : TemplateScaled o) :
    (update_scale (update_scale (update_scale o s1) s2) s1).ports
      = (update_scale
          (mkHydraulicObject o.port_configs o.base_svg_scale g0 o.scene_pos)
          s1).ports := by
  obtain ⟨h1, _, hcfg1, hbs1, hsc1⟩ := update_scale_template o s1 h
  obtain ⟨h2, _, hcfg2, hbs2, hsc2⟩ := update_scale_template _ s2 h1
  obtain ⟨h3, hcs3, hcfg3, hbs3, hsc3⟩ := update_scale_template _ s1 h2
  obtain ⟨hf, hcsf, hcfgf, hbsf, hscf⟩ :=
    update_scale_template _ s1
      (mkHydraulicObject_template o.port_configs o.base_svg_scale g0 o.scene_pos)
  rw [h3, hf]
  simp only [hcs3, hcfg3, hbs3, hsc3, hcfg2, hbs2, hsc2, hcfg1, hbs1, hsc1,
    hcsf, hcfgf, hbsf, hscf, mk_port_configs, mk_base_svg_scale, mk_scene_pos]

/-- Witness for C2 (amended) at a concrete freshly built component. -/
theorem C2_witness :
    (update_scale (update_scale (update_scale
        (mkHydraulicObject [⟨"1", "input", ⟨5, 0⟩⟩] 1 1 ⟨0, 0⟩) 2) 3) 2).ports
      = (update_scale
          (mkHydraulicObject
            (mkHydraulicObject [⟨"1", "input", ⟨5, 0⟩⟩] 1 1 ⟨0, 0⟩).port_configs
            (mkHydraulicObject [⟨"1", "input", ⟨5, 0⟩⟩] 1 1 ⟨0, 0⟩).base_svg_scale
            1
            (mkHydraulicObject [⟨"1", "input", ⟨5, 0⟩⟩] 1 1 ⟨0, 0⟩).scene_pos)
          2).ports :=
  C2_roundtrip_scale_templateScaled
    (mkHydraulicObject [⟨"1", "input", ⟨5, 0⟩⟩] 1 1 ⟨0, 0⟩) 2 3 1
    (mkHydraulicObject_template [⟨"1", "input", ⟨5, 0⟩⟩] 1 1 ⟨0, 0⟩)

/-- C2 counterexample: a component that was flipped after construction is
still "a component", yet three update_scale calls whose effective scale never
changes are all no-ops, so the flipped port position survives and differs
from the fresh construction at the same scale. -/
theorem C2_counterexample :
    (update_scale (update_scale (update_scale
        (flip_single_object_around_center
          (mkHydraulicObject [⟨"1", "input", ⟨5, 0⟩⟩] 1 1 ⟨0, 0⟩)
          "horizontal") 1) 1) 1).ports.map (fun p => p.initial_position)
      = [⟨-5, 0⟩]
    ∧ (update_scale (mkHydraulicObject [⟨"1", "input", ⟨5, 0⟩⟩] 1 1 ⟨0, 0⟩)
        1).ports.map (fun p => p.initial_position)
      = [⟨5, 0⟩]
    ∧ (update_scale (update_scale (update_scale
        (flip_single_object_around_center
          (mkHydraulicObject [⟨"1", "input", ⟨5, 0⟩⟩] 1 1 ⟨0, 0⟩)
          "horizontal") 1) 1) 1).ports.map (fun p => p.initial_position)
      ≠ (update_scale (mkHydraulicObject [⟨"1", "input", ⟨5, 0⟩⟩] 1 1 ⟨0, 0⟩)
          1).ports.map (fun p => p.initial_position) := by
  have h1 : (update_scale (update_scale (update_scale
      (flip_single_object_around_center
        (mkHydraulicObject [⟨"1", "input", ⟨5, 0⟩⟩] 1 1 ⟨0, 0⟩)
        "horizontal") 1) 1) 1).ports.map (fun p => p.initial_position)
      = [⟨-5, 0⟩] := by
    norm_num [update_scale, update_ports_scale, update_ports_scale_aux,
      port_update_scale, mkHydraulicObject, create_ports,
      flip_single_object_around_center, flip_object_ports, BASE_RADIUS]
  have h2 : (update_scale (mkHydraulicObject [⟨"1", "input", ⟨5, 0⟩⟩] 1 1 ⟨0, 0⟩)
      1).ports.map (fun p => p.initial_position) = [⟨5, 0⟩] := by
    norm_num [update_scale, update_ports_scale, update_ports_scale_aux,
      port_update_scale, mkHydraulicObject, create_ports, BASE_RADIUS]
  refine ⟨h1, h2, ?_⟩
  rw [h1, h2]
  norm_num

theorem center_singleton (o : HydraulicObjectState) :
    calculate_objects_center [o] = o.scene_pos := by
  simp [calculate_objects_center]

theorem rotate_objects_singleton (a c s : ℚ) (x : HydraulicObjectState) :
    rotate_objects a c s [x] = [rotate_single_object a c s x.scene_pos x] := by
  simp [rotate_objects, center_singleton]

theorem rotate_single_rel (a c s : ℚ) (ctr : Point) (o : HydraulicObjectState) :
    (rotate_single_object a c s ctr o).ports.map (fun p => p.initial_position)
      = (o.ports.map fun p => p.initial_position).map (rotate_vec c s) := by
  simp [rotate_single_object, rotate_object_ports, update_ports_positions,
    List.map_map]

theorem rotate_vec_quarter_four (v : Point) :
    rotate_vec 0 1 (rotate_vec 0 1 (rotate_vec 0 1 (rotate_vec 0 1 v))) = v := by
  apply Point.ext_xy <;> simp [rotate_vec]

theorem map_rotate_quarter_four (l : List Point) :
    ((((l.map (rotate_vec 0 1)).map (rotate_vec 0 1)).map
        (rotate_vec 0 1)).map (rotate_vec 0 1)) = l := by
  induction l with
  | nil => rfl
  | cons a t ih =>
      simp only [List.map_cons, ih]
      rw [rotate_vec_quarter_four]

/-- C5: for a nonempty selection the rotation center is the unweighted
arithmetic mean of the scene positions; each component moves by rotating the
centroid-to-component vector, its visual rotation grows by the angle, and
its ports rotate locally by (x*cos - y*sin, x*sin + y*cos); four successive
90 degree rotations of a single component restore every port's relative
position exactly, hence within the 1e-6 tolerance. -/
theorem C5_rotation (objs : List HydraulicObjectState) (h : objs ≠ [])
    (angle c s : ℚ) (ctr : Point) (o : HydraulicObjectState) :
    calculate_objects_center objs
      = ⟨(objs.map fun g => g.scene_pos.x).sum / objs.length,
         (objs.map fun g => g.scene_pos.y).sum / objs.length⟩
    ∧ (rotate_single_object angle c s ctr o).scene_pos
        = ctr + rotate_vec c s (o.scene_pos - ctr)
    ∧ (rotate_single_object angle c s ctr o).rotation = o.rotation + angle
    ∧ (rotate_single_object angle c s ctr o).ports.map
        (fun p => p.initial_position)
      = (o.ports.map fun p => p.initial_position).map (rotate_vec c s)
    ∧ (rotate_objects 90 0 1 (rotate_objects 90 0 1 (rotate_objects 90 0 1
        (rotate_objects 90 0 1 [o])))).map
          (fun g => g.ports.map fun p => p.initial_position)
      = [o.ports.map fun p => p.initial_position] := by
  refine ⟨?_, rfl, rfl, rotate_single_rel angle c s ctr o, ?_⟩
  · match objs, h with
    | g :: t, _ => rfl
  · rw [rotate_objects_singleton, rotate_objects_singleton,
        rotate_objects_singleton, rotate_objects_singleton]
    simp only [List.map_cons, List.map_nil, List.cons.injEq, and_true]
    rw [rotate_single_rel, rotate_single_rel, rotate_single_rel,
        rotate_single_rel]
    exact map_rotate_quarter_four _

/-- A concrete component used to instantiate witnesses. -/
def sample_obj : HydraulicObjectState :=
  ⟨[⟨"1", "input", ⟨5, 0⟩⟩], 1, 1, 0, ⟨2, 3⟩,
   [⟨"1", "input", ⟨5, 0⟩, ⟨7, 3⟩, 1, 3⟩]⟩

/-- Witness for C5 at a concrete single-component selection. -/
theorem C5_witness :
    calculate_objects_center [sample_obj] = ⟨2, 3⟩
    ∧ (rotate_objects 90 0 1 (rotate_objects 90 0 1 (rotate_objects 90 0 1
        (rotate_objects 90 0 1 [sample_obj])))).map
          (fun g => g.ports.map fun p => p.initial_position)
      = [[⟨5, 0⟩]] := by
  obtain ⟨h1, _, _, _, h5⟩ :=
    C5_rotation [sample_obj] (by simp) 90 0 1 ⟨0, 0⟩ sample_obj
  constructor
  · rw [h1]
    simp [sample_obj]
  · rw [h5]
    simp [sample_obj]

/-- A second concrete component, at a different scene position. -/
def sample_obj_b : HydraulicObjectState :=
  ⟨[⟨"1", "input", ⟨5, 0⟩⟩], 1, 1, 0, ⟨10, 20⟩,
   [⟨"1", "input", ⟨5, 0⟩, ⟨15, 20⟩, 1, 3⟩]⟩

/-- C6: alignment takes its reference from the LAST element of the list:
horizontal alignment moves every component's Y onto the last one's Y keeping
each X (vertical symmetrically with X), the last component itself does not
move, and on [a, b, c] versus [c, b, a] the reference switches from c to a. -/
theorem C6_align_reference_last (objs : List HydraulicObjectState)
    (ref : HydraulicObjectState) (h : objs.getLast? = some ref)
    (hlen : 2 ≤ objs.length) (a b c : HydraulicObjectState) :
    (align_objects objs "horizontal").2 = true
    ∧ (align_objects objs "horizontal").1.map (fun o => o.scene_pos)
        = objs.map (fun o => ⟨o.scene_pos.x, ref.scene_pos.y⟩)
    ∧ ((align_objects objs "horizontal").1.getLast?).map (fun o => o.scene_pos)
        = some ref.scene_pos
    ∧ (align_objects objs "vertical").1.map (fun o => o.scene_pos)
        = objs.map (fun o => ⟨ref.scene_pos.x, o.scene_pos.y⟩)
    ∧ ((align_objects objs "vertical").1.getLast?).map (fun o => o.scene_pos)
        = some ref.scene_pos
    ∧ (align_objects [a, b, c] "horizontal").1.map (fun o => o.scene_pos)
        = [⟨a.scene_pos.x, c.scene_pos.y⟩, ⟨b.scene_pos.x, c.scene_pos.y⟩,
           c.scene_pos]
    ∧ (align_objects [c, b, a] "horizontal").1.map (fun o => o.scene_pos)
        = [⟨c.scene_pos.x, a.scene_pos.y⟩, ⟨b.scene_pos.x, a.scene_pos.y⟩,
           a.scene_pos] := by
  have hnot : ¬ objs.length < 2 := by omega
  refine ⟨?_, ?_, ?_, ?_, ?_, ?_, ?_⟩
  · simp [align_objects, hnot, calculate_alignment_reference, h]
  · simp [align_objects, hnot, calculate_alignment_reference, h,
      align_single_object, update_ports_positions, List.map_map]
  · simp [align_objects, hnot, calculate_alignment_reference, h,
      align_single_object, update_ports_positions, List.getLast?_map, h]
  · simp [align_objects, hnot, calculate_alignment_reference, h,
      align_single_object, update_ports_positions, List.map_map]
  · simp [align_objects, hnot, calculate_alignment_reference, h,
      align_single_object, update_ports_positions, List.getLast?_map, h]
  · simp [align_objects, calculate_alignment_reference,
      align_single_object, update_ports_positions]
  · simp [align_objects, calculate_alignment_reference,
      align_single_object, update_ports_positions]

/-- Witness for C6 at a concrete two-component selection. -/
theorem C6_witness :
    (align_objects [sample_obj, sample_obj_b] "horizontal").1.map
        (fun o => o.scene_pos)
      = [⟨2, 20⟩, ⟨10, 20⟩] := by
  have h := (C6_align_reference_last [sample_obj, sample_obj_b] sample_obj_b
    (by simp) (by simp) sample_obj sample_obj sample_obj).2.1
  rw [h]
  simp [sample_obj, sample_obj_b]

/-! ## Port-type detection and port ordering
(src/config/svg_port_parser.py) -/

/-- Character-run matcher: whether the first list is an initial run of the
second.  Building block for the Python substring test `needle in hay`. -/
def matchesAt : List Char → List Char → Bool
  | [], _ => true
  | _ :: _, [] => false
  | a :: as, b :: bs => (a == b) && matchesAt as bs

/-- Whether `needle` occurs contiguously inside `hay`. -/
def containsSub (needle : List Char) : List Char → Bool
  | [] => matchesAt needle []
  | c :: cs => matchesAt needle (c :: cs) || containsSub needle cs

/-- Python `needle in hay` on strings. -/
def str_contains (hay needle : String) : Bool :=
  containsSub needle.toList hay.toList

/-- `SVGPortParser.port_type_mapping` (svg_port_parser.py lines 25-47), in
insertion order - the iteration order of the Python dict. -/
def port_type_mapping : List (String × String) :=
  [("inlet", "input"), ("in", "input"), ("aspiration", "input"),
   ("suction", "input"), ("entry", "input"), ("entree", "input"),
   ("outlet", "output"), ("out", "output"), ("discharge", "output"),
   ("refoulement", "output"), ("exit", "output"), ("sortie", "output"),
   ("connection", "bidirectional"), ("conn", "bidirectional"),
   ("both", "bidirectional"), ("bidirect", "bidirectional")]

/-- Value of a run of decimal digits. -/
def digitsToNat (ds : List Char) : Nat :=
  ds.foldl (fun acc c => acc * 10 + (c.toNat - '0'.toNat)) 0

/-- The first maximal run of digits in a character list. -/
def firstNumberAux : List Char → Option (List Char)
  | [] => none
  | c :: cs =>
      if c.isDigit then some (c :: cs.takeWhile Char.isDigit)
      else firstNumberAux cs

/-- `re.search(r'(\d+)', s)`: the first number appearing in `s`, if any. -/
def first_number (s : String) : Option Nat :=
  (firstNumberAux s.toList).map digitsToNat

/-- Python `str.lower()` on these ASCII identifiers: character-by-character
lowering (a kernel-computable form of `String.toLower`, which maps
`Char.toLower` over the string). -/
def str_to_lower (s : String) : String := String.mk (s.toList.map Char.toLower)

/-- The `for port_type in [...]` loop over the class attribute in
`_determine_port_type` (svg_port_parser.py lines 273-276). -/
def classKeywordLoop (class_attr : String) : List String → Option String
  | [] => none
  | t :: ts =>
      if str_contains class_attr t then some t else classKeywordLoop class_attr ts

/-- The loop over `port_type_mapping` in `_determine_port_type`
(svg_port_parser.py lines 279-282). -/
def idKeywordLoop (id_lower : String) : List (String × String) → Option String
  | [] => none
  | kv :: rest =>
      if str_contains id_lower kv.1 then some kv.2 else idKeywordLoop id_lower rest

/-- `SVGPortParser._determine_port_type` (svg_port_parser.py lines 266-292). -/
def determine_port_type (circle_id data_type class_attr : String) : String :=
  let dt := str_to_lower data_type
  if dt ∈ ["input", "output", "bidirectional"] then dt
  else
    match classKeywordLoop (str_to_lower class_attr) ["input", "output", "bidirectional"] with
    | some t => t
    | none =>
        match idKeywordLoop (str_to_lower circle_id) port_type_mapping with
        | some t => t
        | none =>
            match first_number circle_id with
            | some n => if n % 2 = 1 then "input" else "output"
            | none => "bidirectional"

/-- The AMENDED port-kind precedence: (a) an explicit type attribute equal
to input, output or bidirectional; otherwise (b) one of those keywords
contained in the class-like attribute; otherwise (c) the first keyword of
the fixed bilingual vocabulary found in the identifier; otherwise (d) parity
of the FIRST run of digits appearing anywhere in the id - not of a numeric
suffix - odd giving input and even output; otherwise (e) bidirectional. -/
def port_type_amended (circle_id data_type class_attr : String) : String :=
  match ["input", "output", "bidirectional"].find?
      (fun t => str_to_lower data_type = t) with
  | some t => t
  | none =>
    match ["input", "output", "bidirectional"].find?
        (fun t => str_contains (str_to_lower class_attr) t) with
    | some t => t
    | none =>
      match port_type_mapping.find? (fun kv => str_contains (str_to_lower circle_id) kv.1) with
      | some kv => kv.2
      | none =>
        match first_number circle_id with
        | some n => if n % 2 = 1 then "input" else "output"
        | none => "bidirectional"

/-- The trailing run of digits of a string, if any: the "numeric suffix"
the claim's fallback (d) speaks of. -/
def numeric_suffix (s : String) : Option Nat :=
  let ds := (s.toList.reverse.takeWhile Char.isDigit).reverse
  if ds.isEmpty then none else some (digitsToNat ds)

/-- The port-kind precedence exactly as claim C7 words it, differing from
the code only in fallback (d), which here reads the parity of the NUMERIC
SUFFIX of the id rather than of the first digit run anywhere in it. -/
def port_type_by_claim (circle_id data_type class_attr : String) : String :=
  match ["input", "output", "bidirectional"].find?
      (fun t => str_to_lower data_type = t) with
  | some t => t
  | none =>
    match ["input", "output", "bidirectional"].find?
        (fun t => str_contains (str_to_lower class_attr) t) with
    | some t => t
    | none =>
      match port_type_mapping.find? (fun kv => str_contains (str_to_lower circle_id) kv.1) with
      | some kv => kv.2
      | none =>
        match numeric_suffix circle_id with
        | some n => if n % 2 = 1 then "input" else "output"
        | none => "bidirectional"

theorem classKeywordLoop_eq_find? (ca : String) (l : List String) :
    classKeywordLoop ca l = l.find? fun t => str_contains ca t := by
  induction l with
  | nil => rfl
  | cons t ts ih =>
      unfold classKeywordLoop
      by_cases h : str_contains ca t = true
      · simp [List.find?_cons, h]
      · simp only [Bool.not_eq_true] at h
        simp [List.find?_cons, h, ih]

theorem idKeywordLoop_eq_find? (idl : String) (l : List (String × String)) :
    idKeywordLoop idl l = (l.find? fun kv => str_contains idl kv.1).map Prod.snd := by
  induction l with
  | nil => rfl
  | cons kv rest ih =>
      unfold idKeywordLoop
      by_cases h : str_contains idl kv.1 = true
      · simp [List.find?_cons, h]
      · simp only [Bool.not_eq_true] at h
        simp [List.find?_cons, h, ih]

theorem find?_self_mem (dt : String) :
    (["input", "output", "bidirectional"].find? fun t => dt = t)
      = if dt ∈ ["input", "output", "bidirectional"] then some dt else none := by
  by_cases h1 : dt = "input" <;> by_cases h2 : dt = "output" <;>
    by_cases h3 : dt = "bidirectional" <;>
    simp [List.find?_cons, h1, h2, h3]

/-- C7 (amended): the executed port-kind detection agrees, on every
identifier and every pair of attribute values, with the precedence: explicit
type attribute, then a keyword in the class-like attribute, then the
bilingual vocabulary as an identifier substring, then parity of the first
digit run appearing anywhere in the id (odd input, even output) - not of a
numeric suffix - and finally bidirectional. -/
theorem C7_port_type_precedence (circle_id data_type class_attr : String) :
    determine_port_type circle_id data_type class_attr
      = port_type_amended circle_id data_type class_attr := by
  unfold determine_port_type port_type_amended
  rw [classKeywordLoop_eq_find?, idKeywordLoop_eq_find?, find?_self_mem]
  by_cases h : str_to_lower data_type ∈ ["input", "output", "bidirectional"]
  · simp [h]
  · rw [if_neg h, if_neg h]
    cases (["input", "output", "bidirectional"].find?
        fun t => str_contains (str_to_lower class_attr) t) with
    | some t => rfl
    | none =>
        cases (port_type_mapping.find?
            fun kv => str_contains (str_to_lower circle_id) kv.1) with
        | some kv => rfl
        | none => rfl

/-- C7 counterexample: the code keys its parity fallback on the FIRST digit
run in the identifier, not on a numeric suffix.  `Port1a` (matching the
pattern `Port[-_]?<word>`) has no numeric suffix, so the claim's cascade
gives bidirectional, yet the code returns input (first number 1, odd); and
`Port2x3` has numeric suffix 3 (odd, input per the claim) yet the code
returns output (first number 2, even). -/
theorem C7_counterexample :
    determine_port_type "Port1a" "" "" = "input"
    ∧ port_type_by_claim "Port1a" "" "" = "bidirectional"
    ∧ determine_port_type "Port2x3" "" "" = "output"
    ∧ port_type_by_claim "Port2x3" "" "" = "input"
    ∧ determine_port_type "Port1a" "" "" ≠ port_type_by_claim "Port1a" "" ""
    ∧ determine_port_type "Port2x3" "" "" ≠ port_type_by_claim "Port2x3" "" "" := by
  refine ⟨?_, ?_, ?_, ?_, ?_, ?_⟩ <;> decide

/-- `SVGPortParser._extract_port_number` (svg_port_parser.py lines 300-303):
the first number in the element id, or the 999 sentinel when none exists. -/
def extract_port_number (svg_id : String) : Nat :=
  match first_number svg_id with
  | some n => n
  | none => 999

/-- A parsed port as far as the sorting step is concerned: the cleaned port
id and the original SVG element id that the sort key reads. -/
structure ParsedPort where
  id : String
  svg_element_id : String
  deriving DecidableEq, Repr

/-- The sort key of `parse_svg_ports` line 82. -/
def port_sort_key (p : ParsedPort) : Nat := extract_port_number p.svg_element_id

/-- Insertion step of a stable sort: the new element, which precedes the
existing ones in the input, goes before the first element of equal or larger
key. -/
def insert_by_key (a : ParsedPort) : List ParsedPort → List ParsedPort
  | [] => [a]
  | b :: bs =>
      if port_sort_key a ≤ port_sort_key b then a :: b :: bs
      else b :: insert_by_key a bs

/-- Python's stable `list.sort(key=self._extract_port_number(...))`
(svg_port_parser.py lines 81-82), modelled as stable insertion sort: the
same permutation of the input, keys ascending, equal keys in input order. -/
def sort_ports : List ParsedPort → List ParsedPort
  | [] => []
  | a :: as => insert_by_key a (sort_ports as)

/-- Comparison by sort key. -/
def port_key_le (p q : ParsedPort) : Prop := port_sort_key p ≤ port_sort_key q

theorem insert_by_key_perm (a : ParsedPort) (l : List ParsedPort) :
    List.Perm (insert_by_key a l) (a :: l) := by
  induction l with
  | nil => exact List.Perm.refl _
  | cons b bs ih =>
      unfold insert_by_key
      by_cases h : port_sort_key a ≤ port_sort_key b
      · rw [if_pos h]
      · rw [if_neg h]
        exact (ih.cons b).trans (List.Perm.swap a b bs)

theorem sort_ports_perm (l : List ParsedPort) : List.Perm (sort_ports l) l := by
  induction l with
  | nil => exact List.Perm.refl _
  | cons a as ih =>
      exact (insert_by_key_perm a (sort_ports as)).trans (ih.cons a)

theorem insert_by_key_pairwise (a : ParsedPort) (l : List ParsedPort)
    (h : List.Pairwise port_key_le l) :
    List.Pairwise port_key_le (insert_by_key a l) := by
  induction l with
  | nil => simp [insert_by_key, List.pairwise_singleton]
  | cons b bs ih =>
      unfold insert_by_key
      obtain ⟨hb, hbs⟩ := List.pairwise_cons.mp h
      by_cases hab : port_sort_key a ≤ port_sort_key b
      · rw [if_pos hab]
        refine List.pairwise_cons.mpr ⟨?_, h⟩
        intro x hx
        rcases List.mem_cons.mp hx with rfl | hx2
        · exact hab
        · exact le_trans hab (hb x hx2)
      · rw [if_neg hab]
        refine List.pairwise_cons.mpr ⟨?_, ih hbs⟩
        intro x hx
        have hx3 := (insert_by_key_perm a bs).mem_iff.mp hx
        rcases List.mem_cons.mp hx3 with rfl | hxbs
        · exact le_of_not_le hab
        · exact hb x hxbs

theorem sort_ports_pairwise (l : List ParsedPort) :
    List.Pairwise port_key_le (sort_ports l) := by
  induction l with
  | nil => simp [sort_ports]
  | cons a as ih => exact insert_by_key_pairwise a _ ih

theorem filter_insert_eq (a : ParsedPort) (l : List ParsedPort) (k : Nat)
    (ha : port_sort_key a = k) :
    (insert_by_key a l).filter (fun x => port_sort_key x == k)
      = a :: l.filter (fun x => port_sort_key x == k) := by
  induction l with
  | nil => simp [insert_by_key, List.filter, ha]
  | cons b bs ih =>
      unfold insert_by_key
      by_cases h : port_sort_key a ≤ port_sort_key b
      · rw [if_pos h]
        simp [List.filter_cons, ha]
      · rw [if_neg h]
        have hbk : ¬ port_sort_key b = k := by omega
        simp [List.filter_cons, hbk, ih]

theorem filter_insert_ne (a : ParsedPort) (l : List ParsedPort) (k : Nat)
    (ha : ¬ port_sort_key a = k) :
    (insert_by_key a l).filter (fun x => port_sort_key x == k)
      = l.filter (fun x => port_sort_key x == k) := by
  induction l with
  | nil => simp [insert_by_key, List.filter_cons, ha]
  | cons b bs ih =>
      unfold insert_by_key
      by_cases h : port_sort_key a ≤ port_sort_key b
      · rw [if_pos h]
        simp [List.filter_cons, ha]
      · rw [if_neg h]
        by_cases hbk : port_sort_key b = k <;> simp [List.filter_cons, hbk, ih]

theorem sort_ports_stable (l : List ParsedPort) (k : Nat) :
    (sort_ports l).filter (fun x => port_sort_key x == k)
      = l.filter (fun x => port_sort_key x == k) := by
  induction l with
  | nil => rfl
  | cons a as ih =>
      show (insert_by_key a (sort_ports as)).filter _ = _
      by_cases ha : port_sort_key a = k
      · rw [filter_insert_eq a _ k ha, ih]
        simp [List.filter_cons, ha]
      · rw [filter_insert_ne a _ k ha, ih]
        simp [List.filter_cons, ha]

/-- C8 (amended): the parser's port list is a stable sort of the input by the
numeric portion of the original identifier, with identifiers containing no
number keyed by the 999 sentinel; hence the order is deterministic and a
numberless identifier comes after every identifier whose number is below
999 - but not after numbers of 999 and above, which is why the original
universal "no-number sorts last" phrasing fails. -/
theorem C8_sort_by_number_sentinel (l : List ParsedPort) :
    List.Perm (sort_ports l) l
    ∧ List.Pairwise port_key_le (sort_ports l)
    ∧ (∀ p : ParsedPort, first_number p.svg_element_id = none →
        port_sort_key p = 999)
    ∧ (∀ k : Nat, (sort_ports l).filter (fun x => port_sort_key x == k)
        = l.filter (fun x => port_sort_key x == k))
    ∧ List.Pairwise
        (fun p q => first_number p.svg_element_id = none →
          999 ≤ port_sort_key q) (sort_ports l) := by
  refine ⟨sort_ports_perm l, sort_ports_pairwise l, ?_,
    fun k => sort_ports_stable l k, ?_⟩
  · intro p hp
    simp [port_sort_key, extract_port_number, hp]
  · refine List.Pairwise.imp ?_ (sort_ports_pairwise l)
    intro a b hab hnone
    have ha : port_sort_key a = 999 := by
      simp [port_sort_key, extract_port_number, hnone]
    unfold port_key_le at hab
    omega

/-- C8 counterexample: `Port1000` contains a number yet ends up after the
numberless `PortX`, because the sentinel key is only 999; so a no-number
identifier does not sort after every identifier containing a number. -/
theorem C8_counterexample :
    sort_ports [⟨"1000", "Port1000"⟩, ⟨"x", "PortX"⟩]
      = [⟨"x", "PortX"⟩, ⟨"1000", "Port1000"⟩]
    ∧ (first_number "Port1000").isSome = true
    ∧ first_number "PortX" = none := by
  refine ⟨?_, ?_, ?_⟩ <;> decide

/-! ## Connection rules
(src/components/ports.py, src/controllers/connection_controller.py) -/

/-- The connection-relevant state of a live `Port`: its identity is the
owning component id plus the port id (ports are uniquely named within their
component, so Python object identity coincides with this pair), together
with its connection flag. -/
structure PortRef where
  parent_component : String
  port_id : String
  is_connected : Bool
  deriving DecidableEq, Repr

/-- `Port.can_connect_to` (ports.py lines 148-167): refuse when either port
is already connected, when the two ports are the same object, or when both
belong to the same component. -/
def can_connect_to (self other : PortRef) : Bool :=
  if self.is_connected || other.is_connected then false
  else if self = other then false
  else if self.parent_component = other.parent_component then false
  else true

/-- `ConnectionController.can_connect_ports` (connection_controller.py lines
365-371): an unresolved (`None`) port never connects. -/
def can_connect_ports : Option PortRef → Option PortRef → Bool
  | some start_port, some end_port => can_connect_to start_port end_port
  | _, _ => false

/-- A pipe as the controller registers it: the two endpoint ports recorded
at creation time (their pre-connection snapshot). -/
structure PipeEnds where
  start_port : PortRef
  end_port : PortRef
  deriving DecidableEq, Repr

/-- `ConnectionController.finish_pipe_construction` (connection_controller.py
lines 242-283), reduced to its registration effect on the pipe collection:
a pipe is built and registered only when `can_connect_ports` accepts the two
resolved ports; otherwise (unresolved component or port, refused connection)
the collection is unchanged and a failure is signalled. -/
def finish_pipe_construction (pipes : List PipeEnds)
    (start_port end_port : Option PortRef) : List PipeEnds :=
  if can_connect_ports start_port end_port then
    match start_port, end_port with
    | some sp, some ep => ⟨sp, ep⟩ :: pipes
    | _, _ => pipes
  else pipes

/-- A pipe that respects the connection rules at creation time: endpoints
free, distinct, and on distinct components. -/
def GoodPipe (pe : PipeEnds) : Prop :=
  pe.start_port.is_connected = false ∧ pe.end_port.is_connected = false
  ∧ pe.start_port ≠ pe.end_port
  ∧ pe.start_port.parent_component ≠ pe.end_port.parent_component

theorem can_connect_to_iff (p q : PortRef) :
    can_connect_to p q = true ↔
      p.is_connected = false ∧ q.is_connected = false ∧ p ≠ q
        ∧ p.parent_component ≠ q.parent_component := by
  unfold can_connect_to
  cases hp : p.is_connected <;> cases hq : q.is_connected <;>
    by_cases h2 : p = q <;>
    by_cases h3 : p.parent_component = q.parent_component <;>
    simp [hp, hq, h2, h3]

/-- C10: the admissibility check accepts exactly when both ports are free,
distinct, and on distinct components; and pipe construction registers a pipe
only when the check accepts, so the collection of reachable pipes never
contains a pipe connecting a port to itself, two ports of one component, or
a port that already held a connection when the pipe was attached. -/
theorem C10_connection_invariant :
    (∀ p q : PortRef, can_connect_to p q = true ↔
      p.is_connected = false ∧ q.is_connected = false ∧ p ≠ q
        ∧ p.parent_component ≠ q.parent_component)
    ∧ ∀ (pipes : List PipeEnds) (start_port end_port : Option PortRef),
        (∀ pe ∈ pipes, GoodPipe pe) →
        ∀ pe ∈ finish_pipe_construction pipes start_port end_port, GoodPipe pe := by
  refine ⟨can_connect_to_iff, ?_⟩
  intro pipes sp ep hall pe hpe
  match sp, ep with
  | none, _ =>
      exact hall pe (by simpa [finish_pipe_construction, can_connect_ports] using hpe)
  | some a, none =>
      exact hall pe (by simpa [finish_pipe_construction, can_connect_ports] using hpe)
  | some a, some b =>
      by_cases hc : can_connect_to a b = true
      · rw [show finish_pipe_construction pipes (some a) (some b) = ⟨a, b⟩ :: pipes
            from by simp [finish_pipe_construction, can_connect_ports, hc]] at hpe
        rcases List.mem_cons.mp hpe with rfl | hmem
        · obtain ⟨h1, h2, h3, h4⟩ := (can_connect_to_iff a b).mp hc
          exact ⟨h1, h2, h3, h4⟩
        · exact hall pe hmem
      · rw [show finish_pipe_construction pipes (some a) (some b) = pipes
            from by simp [finish_pipe_construction, can_connect_ports, hc]] at hpe
        exact hall pe hpe

/-- Witness for C10 at a concrete admissible connection. -/
theorem C10_witness :
    finish_pipe_construction []
        (some ⟨"pump_001", "outlet", false⟩) (some ⟨"valve_002", "inlet", false⟩)
      = [⟨⟨"pump_001", "outlet", false⟩, ⟨"valve_002", "inlet", false⟩⟩]
    ∧ GoodPipe ⟨⟨"pump_001", "outlet", false⟩, ⟨"valve_002", "inlet", false⟩⟩ := by
  have heq : finish_pipe_construction []
      (some ⟨"pump_001", "outlet", false⟩) (some ⟨"valve_002", "inlet", false⟩)
      = [⟨⟨"pump_001", "outlet", false⟩, ⟨"valve_002", "inlet", false⟩⟩] := by
    decide
  refine ⟨heq, ?_⟩
  exact C10_connection_invariant.2 []
    (some ⟨"pump_001", "outlet", false⟩) (some ⟨"valve_002", "inlet", false⟩)
    (by simp) _ (by rw [heq]; exact List.mem_singleton.mpr rfl)
